import Mathlib

/-!
Shallow embedding of the TactileSense v3.2 DMR acquisition core
(`src/tactile_sense_main_v3.2_BASELINE_20260204.py`).

Pressure values and orientation angles are Python floats; they are modelled
as rationals (ℚ).  Raw sensor channels are numpy integer arrays
(`dtype=int`), modelled as `List ℤ`.  `numpy.ndarray.astype(int)` truncates
toward zero, modelled by `ratTrunc`.  Tkinter widgets, dialogs and the
matplotlib drawing calls are external collaborators and are not modelled;
only the state they read/write is.
-/

namespace TactileSense

/-- The `self.pressure_zones` dict: PT-defined pressure zone thresholds. -/
structure PressureZones where
  therapeuticMin : ℚ
  therapeuticMax : ℚ
  cautionMax : ℚ
deriving DecidableEq, Repr

/-- Default zones from `TactileSenseClinical.__init__`:
`{'therapeutic_min': 20, 'therapeutic_max': 45, 'caution_max': 60}`. -/
def defaultZones : PressureZones := ⟨20, 45, 60⟩

/-- `TactileSenseClinical.get_zone_name` (lines 1631-1642): maps a pressure
value to the displayed zone-name string given the current thresholds. -/
def get_zone_name (z : PressureZones) (pressure : ℚ) : String :=
  if pressure < 1 then "No Contact"
  else if pressure < z.therapeuticMin then "Below Therapeutic"
  else if pressure ≤ z.therapeuticMax then "Therapeutic ✓"
  else if pressure ≤ z.cautionMax then "Above Therapeutic"
  else "CAUTION!"

/-- `TactileSenseClinical.get_pressure_zone_color` (lines 1618-1629): the
same five-way split, returning the display colour. -/
def get_pressure_zone_color (z : PressureZones) (pressure : ℚ) : String :=
  if pressure < 1 then "#E0E0E0"
  else if pressure < z.therapeuticMin then "#4A90E2"
  else if pressure ≤ z.therapeuticMax then "#4CAF50"
  else if pressure ≤ z.cautionMax then "#FFA726"
  else "#EF5350"

/-- Error raised (as a modal messagebox) by the zone dialog when the
candidate thresholds are rejected. -/
inductive ZoneError where
  | invalidThresholds
deriving DecidableEq, Repr

/-- `InteractiveZoneDialog.save_zones` (lines 1139-1168): validates the three
slider values and either reports an error (leaving the zones untouched) or
produces the new zones dict passed to the callback.  The source checks
`min_v >= max_v` and then `max_v >= caut_v`; it does NOT check positivity. -/
def save_zones (minV maxV cautV : ℚ) : Except ZoneError PressureZones :=
  if minV ≥ maxV then .error .invalidThresholds
  else if maxV ≥ cautV then .error .invalidThresholds
  else .ok ⟨minV, maxV, cautV⟩

/-- `TactileSenseClinical.configure_zones` callback `on_zones_updated`
(lines 1286-1299) composed with `save_zones`: on success
`self.pressure_zones = new_zones`; on a validation error `save_zones`
returns before the callback, so the current zones stay in effect. -/
def configure_zones (current : PressureZones) (minV maxV cautV : ℚ) :
    PressureZones :=
  match save_zones minV maxV cautV with
  | .ok z => z
  | .error _ => current

/-- Truncation of a rational toward zero, the semantics of
`numpy.ndarray.astype(int)` applied to the (exact) mean value. -/
def ratTrunc (q : ℚ) : ℤ := q.num.tdiv q.den

/-- `np.mean(buffer, axis=0)` for a non-empty list of equal-length integer
vectors: the element-wise exact mean.  On the empty list numpy would warn
and give NaN; the source only calls it on a non-empty buffer. -/
def npMeanAxis0 (buf : List (List ℤ)) : List ℚ :=
  match buf with
  | [] => []
  | v :: _ =>
    (List.range v.length).map
      (fun i => ((buf.map (fun w => w.getD i 0)).sum : ℚ) / (buf.length : ℚ))

/-- Sum of channel `i` across all buffered samples (used to state what the
element-wise mean is). -/
def channelSum (buf : List (List ℤ)) (i : ℕ) : ℤ :=
  (buf.map (fun w => w.getD i 0)).sum

/-- The `hand_orientation` dict `{'roll','pitch','yaw'}`. -/
structure Orientation where
  roll : ℚ
  pitch : ℚ
  yaw : ℚ
deriving DecidableEq, Repr

/-- Session metadata dict produced by `DMRSessionDialog` and stored in
`self.current_session_metadata` (the fields the core reads). -/
structure SessionMetadata where
  sessionId : String
  patientId : String
  ptId : String
  ptaId : Option String
  treatmentLocation : String
  treatmentType : String
  date : String
  time : String
  notes : Option String
  autoExportCsv : Bool
deriving DecidableEq, Repr

/-- One recorded DMR frame: the `frame_data` dict built in
`TactileSenseClinical._capture_frame` (lines 2102-2111). -/
structure Frame where
  frameNumber : ℕ
  timestamp : String
  sensorData : List ℤ
  handOrient : Orientation
  demoPattern : Option String
  framePeriodMs : ℕ
  pulsesAveraged : ℕ
deriving DecidableEq, Repr

/-- The mutable state of `TactileSenseClinical` that the acquisition /
recording core reads and writes (UI widgets excluded). -/
structure AppState where
  sensorMode : String
  isRecording : Bool
  frameCount : ℕ
  currentPattern : String
  sensorData : List ℤ
  displayData : List ℤ
  currentSessionMetadata : Option SessionMetadata
  recordedFrames : List Frame
  sessionSaved : Bool
  framePeriodMs : ℕ
  pulseBuffer : List (List ℤ)
  frameCaptureScheduled : Bool
  handOrient : Orientation
  pressureZones : PressureZones
deriving DecidableEq, Repr

/-- The error taxonomy's `NotRecording`.  The embedding gives
`_capture_frame` an explicit error channel (Python could signal by raising);
whether the source ever uses it is exactly what claim C7 asks. -/
inductive CaptureError where
  | notRecording
deriving DecidableEq, Repr

/-- `TactileSenseClinical._capture_frame` (lines 2077-2134).  `now` is the
value of `datetime.now().isoformat()` at the firing.  Returns the new state
and the frame appended, if any.  When `not self.is_recording or not
self.current_session_metadata` the source resets the scheduling flag,
clears the pulse buffer and returns normally (it raises nothing). -/
def captureFrame (s : AppState) (now : String) :
    Except CaptureError (AppState × Option Frame) :=
  if ¬ (s.isRecording = true ∧ s.currentSessionMetadata.isSome = true) then
    .ok ({ s with frameCaptureScheduled := false, pulseBuffer := [] }, none)
  else
    let averagedData : List ℤ :=
      if s.pulseBuffer ≠ [] then (npMeanAxis0 s.pulseBuffer).map ratTrunc
      else s.sensorData
    let numPulses : ℕ := if s.pulseBuffer ≠ [] then s.pulseBuffer.length else 1
    let frame : Frame :=
      { frameNumber := s.recordedFrames.length
        timestamp := now
        sensorData := averagedData
        handOrient := s.handOrient
        demoPattern :=
          if s.sensorMode = "demo" then some s.currentPattern else none
        framePeriodMs := s.framePeriodMs
        pulsesAveraged := numPulses }
    .ok ({ s with
            pulseBuffer := []
            displayData := averagedData
            recordedFrames := s.recordedFrames ++ [frame] },
         some frame)

/-- The `summary` sub-dict of the persisted DMR document
(lines 2308-2312). -/
structure DmrSummary where
  totalFrames : ℕ
  durationSeconds : ℚ
  recordingComplete : Bool
deriving DecidableEq, Repr

/-- The persisted DMR document `dmr_document` (lines 2300-2313). -/
structure DmrDocument where
  dmrFormatVersion : String
  createdBy : String
  device : String
  session : SessionMetadata
  pressureZones : PressureZones
  frames : List Frame
  summary : DmrSummary
deriving DecidableEq, Repr

/-- Builds `dmr_document` exactly as `_save_dmr_file` does; note
`'duration_seconds': len(self.recorded_frames) * 0.05` (line 2310) uses the
fixed 50 ms assumption, and 0.05 = 1/20. -/
def mkDmrDocument (meta : SessionMetadata) (frames : List Frame)
    (zones : PressureZones) : DmrDocument :=
  { dmrFormatVersion := "1.0"
    createdBy := "TactileSense v3.2 DMR Edition"
    device := "PT Robotic Therapeutic System"
    session := meta
    pressureZones := zones
    frames := frames
    summary :=
      { totalFrames := frames.length
        durationSeconds := (frames.length : ℚ) * (1 / 20)
        recordingComplete := true } }

/-- The period-aware duration the spec prescribes: sum over frames of
`period_ms / 1000`.  Stated from the spec's words, for comparison with the
document the source actually builds. -/
def specDurationSeconds (frames : List Frame) : ℚ :=
  (frames.map (fun f => (f.framePeriodMs : ℚ) / 1000)).sum

/-- `TactileSenseClinical._save_dmr_file` (lines 2267-2387).  `ioOk` is
whether `open`/`json.dump` succeeded.  With no active metadata the method
returns at once.  On success the only state mutation is
`self._session_saved = True` (line 2374); the `except` branch (lines
2384-2387) shows an error box and mutates nothing.  The second component is
the document durably written, if any. -/
def saveDmrFile (s : AppState) (ioOk : Bool) : AppState × Option DmrDocument :=
  match s.currentSessionMetadata with
  | none => (s, none)
  | some meta =>
    let doc := mkDmrDocument meta s.recordedFrames s.pressureZones
    if ioOk then ({ s with sessionSaved := true }, some doc)
    else (s, none)

/-- `TactileSenseClinical.load_dmr` (lines 2525-2581), successful path:
populates the in-memory state from the parsed document
(`current_session_metadata = session`, `recorded_frames = frames`,
`is_recording = False`, `_session_saved = True`). -/
def loadDmr (s : AppState) (doc : DmrDocument) : AppState :=
  { s with
      currentSessionMetadata := some doc.session
      recordedFrames := doc.frames
      isRecording := false
      sessionSaved := true }

/-- `TactileSenseClinical.toggle_record` (lines 2136-2165) together with
`_start_dmr_session`'s `on_session_created` callback (lines 2167-2209).
`dialogMeta` is the metadata the session dialog returns (`none` = operator
cancelled). -/
def toggleRecord (s : AppState) (dialogMeta : Option SessionMetadata) :
    AppState :=
  if s.sensorMode = "disconnected" then s
  else if s.isRecording then
    { s with isRecording := false, frameCaptureScheduled := false,
             pulseBuffer := [] }
  else if s.currentSessionMetadata.isSome ∧ ¬ s.sessionSaved then
    { s with isRecording := true }
  else
    let s1 := { s with currentSessionMetadata := none, recordedFrames := [],
                       sessionSaved := false }
    match dialogMeta with
    | some m =>
      { s1 with currentSessionMetadata := some m, recordedFrames := [],
                isRecording := true }
    | none => s1

/-- `TactileSenseClinical.stop_record` (lines 2211-2265).  `save` is the
operator's answer to the save prompt; `ioOk` feeds `_save_dmr_file`.
Returns the new state and the document written, if any. -/
def stopRecord (s : AppState) (save ioOk : Bool) :
    AppState × Option DmrDocument :=
  if s.currentSessionMetadata = none ∧ s.recordedFrames = [] then (s, none)
  else
    let s1 := { s with isRecording := false, frameCaptureScheduled := false,
                       pulseBuffer := [] }
    if s1.currentSessionMetadata.isSome ∧ s1.recordedFrames ≠ [] then
      if save then saveDmrFile s1 ioOk
      else ({ s1 with currentSessionMetadata := none, recordedFrames := [] },
            none)
    else
      ({ s1 with currentSessionMetadata := none, recordedFrames := [] }, none)

/-- One pass of the body of `TactileSenseClinical.update_loop`
(lines 2030-2075) with the sensor connected: store the fresh raw sample,
mirror it to the display when not recording, and append it to the pulse
buffer (scheduling a frame capture) when recording with a session. -/
def updateTick (s : AppState) (sample : List ℤ) : AppState :=
  if s.sensorMode = "disconnected" then s
  else
    let s1 := { s with sensorData := sample }
    let s2 := if ¬ s1.isRecording then { s1 with displayData := sample }
              else s1
    let s3 :=
      if s2.isRecording ∧ s2.currentSessionMetadata.isSome then
        { s2 with pulseBuffer := s2.pulseBuffer ++ [sample],
                  frameCaptureScheduled := true }
      else s2
    { s3 with frameCount := s3.frameCount + 1 }

/-- The operator / timer events that drive the recording core. -/
inductive Event where
  | tick (sample : List ℤ)
  | capture (now : String)
  | toggle (dialogMeta : Option SessionMetadata)
  | stop (save ioOk : Bool)
deriving Repr

/-- Applies one event to the state (the emitted frame / written document is
dropped; only state evolution matters for the session invariants). -/
def stepEvent (s : AppState) (e : Event) : AppState :=
  match e with
  | .tick sample => updateTick s sample
  | .capture now =>
    match captureFrame s now with
    | .ok (s', _) => s'
    | .error _ => s
  | .toggle dialogMeta => toggleRecord s dialogMeta
  | .stop save ioOk => (stopRecord s save ioOk).1

/-- Runs a sequence of events from a state. -/
def runEvents (s : AppState) (es : List Event) : AppState :=
  es.foldl stepEvent s

/-- The fresh application state built in `TactileSenseClinical.__init__`
(lines 1188-1242), with the demo simulator selected as sample source. -/
def initState : AppState :=
  { sensorMode := "demo"
    isRecording := false
    frameCount := 0
    currentPattern := "ball_grip"
    sensorData := List.replicate 65 0
    displayData := List.replicate 65 0
    currentSessionMetadata := none
    recordedFrames := []
    sessionSaved := false
    framePeriodMs := 50
    pulseBuffer := []
    frameCaptureScheduled := false
    handOrient := ⟨0, 0, 0⟩
    pressureZones := defaultZones }

/-- Frame indices are exactly `0, 1, ..., n-1` in order. -/
def framesIndexed (frames : List Frame) : Prop :=
  frames.map (fun f => f.frameNumber) = List.range frames.length

instance (frames : List Frame) : Decidable (framesIndexed frames) := by
  unfold framesIndexed; infer_instance

/-- Python's `max` on a non-empty list (a fold of binary max over the tail,
seeded with the head).  The `[]` case never arises in the source (`max(sd)`
is only evaluated under `if sd:`); 0 is a dummy. -/
def pyMax (l : List ℤ) : ℤ :=
  match l with
  | [] => 0
  | h :: t => t.foldl max h

/-- One row of the per-frame summary table of
`TactileSenseClinical.export_dmr_report` (numeric values; the source
formats `peak`/`avg` into strings when writing the CSV). -/
structure ReportRow where
  frameNumber : ℕ
  timestamp : String
  demoPattern : Option String
  peak : ℚ
  avg : ℚ
  zone : String
  activeSensors : ℕ
deriving DecidableEq, Repr

/-- The per-frame summary computation of `export_dmr_report`
(lines 2622-2650): `active = [v for v in sd if v > 1.0]` (channels are
integers, so `v > 1.0` is `1 < v`),
`peak = max(sd)`, `avg = sum(active)/len(active) if active else 0.0`, a
four-way zone split on `avg` (no "No Contact" branch here), and the
`"No Data"` row only when the frame's `sensor_data` list is empty. -/
def reportRow (zones : PressureZones) (f : Frame) : ReportRow :=
  let sd := f.sensorData
  if sd ≠ [] then
    let active := sd.filter (fun v => 1 < v)
    let peak : ℚ := (pyMax sd : ℚ)
    let avg : ℚ :=
      if active ≠ [] then ((active.sum : ℤ) : ℚ) / (active.length : ℚ) else 0
    let zone : String :=
      if avg < zones.therapeuticMin then "Below Therapeutic"
      else if avg ≤ zones.therapeuticMax then "Therapeutic OK"
      else if avg ≤ zones.cautionMax then "Above Therapeutic"
      else "CAUTION"
    { frameNumber := f.frameNumber
      timestamp := f.timestamp
      demoPattern := f.demoPattern
      peak := peak
      avg := avg
      zone := zone
      activeSensors := active.length }
  else
    { frameNumber := f.frameNumber
      timestamp := f.timestamp
      demoPattern := f.demoPattern
      peak := 0
      avg := 0
      zone := "No Data"
      activeSensors := 0 }

/-- Concrete session metadata used for concrete runs. -/
def m0 : SessionMetadata :=
  { sessionId := "TS-2026-001"
    patientId := "P001"
    ptId := "PT9"
    ptaId := none
    treatmentLocation := "shoulder"
    treatmentType := "pt_protocol"
    date := "2026-02-04"
    time := "10:00"
    notes := none
    autoExportCsv := false }

/-- The `pulses_averaged` reported by a firing of `_capture_frame`, if a
frame was appended. -/
def drainedCount (s : AppState) (now : String) : Option ℕ :=
  match captureFrame s now with
  | .ok (_, some f) => some f.pulsesAveraged
  | _ => none

/-- The averaged channels reported by a firing of `_capture_frame`, if a
frame was appended. -/
def drainedData (s : AppState) (now : String) : Option (List ℤ) :=
  match captureFrame s now with
  | .ok (_, some f) => some f.sensorData
  | _ => none

/-- Recording state whose aggregation buffer holds the single-channel
samples 10, 20, 30 (the spec's aggregation scenario). -/
def c2State : AppState :=
  { initState with
      isRecording := true
      currentSessionMetadata := some m0
      pulseBuffer := [[10], [20], [30]] }

/-- Recording state with an empty aggregation buffer and last raw sample
[12, 0, 44]. -/
def c3State : AppState :=
  { initState with
      isRecording := true
      currentSessionMetadata := some m0
      sensorData := [12, 0, 44]
      pulseBuffer := [] }

/-- Paused state (session open, not recording) with a stale pulse in the
buffer and a capture firing still scheduled. -/
def c7State : AppState :=
  { initState with
      isRecording := false
      currentSessionMetadata := some m0
      pulseBuffer := [[3]]
      frameCaptureScheduled := true }

/-- A recorded frame captured while the operator had set the frame period
to 100 ms. -/
def c4FrameA : Frame :=
  ⟨0, "t1", [10], ⟨0, 0, 0⟩, some "ball_grip", 100, 2⟩

/-- A second 100 ms-period frame. -/
def c4FrameB : Frame :=
  ⟨1, "t2", [20], ⟨0, 0, 0⟩, some "ball_grip", 100, 2⟩

/-- A completed one-frame session about to be saved. -/
def c9State : AppState :=
  { initState with
      isRecording := false
      currentSessionMetadata := some m0
      recordedFrames := [c4FrameA] }

/-- A frame whose 65 channels are all zero: no active channel, but a
non-empty channel list. -/
def c10Frame : Frame :=
  ⟨0, "t0", List.replicate 65 0, ⟨0, 0, 0⟩, some "idle", 50, 1⟩

/-- A frame with two active channels (30 and 50 kPa). -/
def c10FrameB : Frame :=
  ⟨1, "t1", [0, 30, 50], ⟨0, 0, 0⟩, some "ball_grip", 50, 1⟩

/-- The pause/resume scenario: start a session, capture one frame, pause,
resume, capture two more frames. -/
def c6Events : List Event :=
  [ .toggle (some m0), .tick [10], .capture "t1",
    .toggle none, .toggle none,
    .tick [20], .capture "t2", .tick [30], .capture "t3" ]

/-- C1: with thresholds (min, max, caution) in the displayed bands'
operating range (1 ≤ min < max < caution; the source's sliders keep
min ≥ 5), `get_zone_name` classifies value < 1 as No Contact,
1 ≤ value < min as Below Therapeutic (the spec's BelowRange),
min ≤ value ≤ max as Therapeutic (InRange), max < value ≤ caution as
Above Therapeutic (AboveRange) and value > caution as CAUTION (Danger);
and with thresholds (20,45,60) the values [0,10,20,45,46,60,61] classify
as [NoContact, BelowRange, InRange, InRange, AboveRange, AboveRange,
Danger]. -/
theorem C1_classification_bands (z : PressureZones)
    (hmin : 1 ≤ z.therapeuticMin) (hmm : z.therapeuticMin < z.therapeuticMax)
    (hmc : z.therapeuticMax < z.cautionMax) (v : ℚ) :
    ((v < 1 → get_zone_name z v = "No Contact") ∧
     (1 ≤ v → v < z.therapeuticMin →
        get_zone_name z v = "Below Therapeutic") ∧
     (z.therapeuticMin ≤ v → v ≤ z.therapeuticMax →
        get_zone_name z v = "Therapeutic ✓") ∧
     (z.therapeuticMax < v → v ≤ z.cautionMax →
        get_zone_name z v = "Above Therapeutic") ∧
     (z.cautionMax < v → get_zone_name z v = "CAUTION!")) ∧
    ([(0 : ℚ), 10, 20, 45, 46, 60, 61].map (get_zone_name defaultZones) =
      ["No Contact", "Below Therapeutic", "Therapeutic ✓", "Therapeutic ✓",
       "Above Therapeutic", "Above Therapeutic", "CAUTION!"]) := by
  refine ⟨⟨?_, ?_, ?_, ?_, ?_⟩, by decide⟩
  · intro h
    simp only [get_zone_name, if_pos h]
  · intro h1 h2
    unfold get_zone_name
    rw [if_neg (by linarith), if_pos h2]
  · intro h1 h2
    unfold get_zone_name
    rw [if_neg (by linarith), if_neg (by linarith), if_pos h2]
  · intro h1 h2
    unfold get_zone_name
    rw [if_neg (by linarith), if_neg (by linarith), if_neg (by linarith),
        if_pos h2]
  · intro h
    unfold get_zone_name
    rw [if_neg (by linarith), if_neg (by linarith), if_neg (by linarith),
        if_neg (by linarith)]

/-- Witness for C1: the default thresholds (20,45,60) satisfy the ordering
hypotheses, and value 30 is classified Therapeutic (InRange). -/
theorem C1_classification_bands_witness :
    get_zone_name defaultZones 30 = "Therapeutic ✓" :=
  (C1_classification_bands defaultZones (by norm_num [defaultZones])
      (by norm_num [defaultZones]) (by norm_num [defaultZones]) 30).1.2.2.1
    (by norm_num [defaultZones]) (by norm_num [defaultZones])

/-- C5 counterexample: the candidate thresholds (0, 10, 20) violate the
claimed invariant `0 < min`, yet `save_zones` accepts them and the new
zones take effect — so "succeeds iff 0 < min < max < caution" is false on
the code. -/
theorem C5_counterexample :
    save_zones 0 10 20 = .ok ⟨0, 10, 20⟩ ∧
    configure_zones defaultZones 0 10 20 = ⟨0, 10, 20⟩ ∧
    ¬ ((0 : ℚ) < 0) := by
  refine ⟨rfl, rfl, by norm_num⟩

/-- C5 (amended): setting the zone thresholds succeeds iff
min < max < caution (positivity of min is NOT checked by the source); a
violating attempt is rejected before mutation and the current thresholds
stay in effect, while a valid attempt installs exactly the candidate
thresholds. -/
theorem C5_set_thresholds (current : PressureZones) (minV maxV cautV : ℚ) :
    ((∃ z, save_zones minV maxV cautV = .ok z) ↔
      (minV < maxV ∧ maxV < cautV)) ∧
    (¬ (minV < maxV ∧ maxV < cautV) →
      save_zones minV maxV cautV = .error .invalidThresholds ∧
      configure_zones current minV maxV cautV = current) ∧
    (minV < maxV ∧ maxV < cautV →
      configure_zones current minV maxV cautV = ⟨minV, maxV, cautV⟩) := by
  unfold configure_zones save_zones
  rcases lt_or_le minV maxV with h1 | h1
  · rcases lt_or_le maxV cautV with h2 | h2
    · rw [if_neg (by linarith), if_neg (by linarith)]
      refine ⟨⟨fun _ => ⟨h1, h2⟩, fun _ => ⟨_, rfl⟩⟩, ?_, fun _ => rfl⟩
      intro hcon
      exact absurd ⟨h1, h2⟩ hcon
    · rw [if_neg (by linarith), if_pos (by linarith)]
      refine ⟨⟨?_, ?_⟩, fun _ => ⟨rfl, rfl⟩, ?_⟩
      · rintro ⟨z, hz⟩; exact absurd hz (by simp)
      · rintro ⟨_, h⟩; linarith
      · rintro ⟨_, h⟩; linarith
  · rw [if_pos (by linarith)]
    refine ⟨⟨?_, ?_⟩, fun _ => ⟨rfl, rfl⟩, ?_⟩
    · rintro ⟨z, hz⟩; exact absurd hz (by simp)
    · rintro ⟨h, _⟩; linarith
    · rintro ⟨h, _⟩; linarith

/-- Witness for C5: valid candidate (5, 10, 20) is installed verbatim over
the default zones. -/
theorem C5_set_thresholds_witness :
    configure_zones defaultZones 5 10 20 = ⟨5, 10, 20⟩ :=
  (C5_set_thresholds defaultZones 5 10 20).2.2 ⟨by norm_num, by norm_num⟩

/-- The element-wise mean over a non-empty buffer has the length of the
first sample. -/
lemma npMeanAxis0_length (v : List ℤ) (t : List (List ℤ)) :
    (npMeanAxis0 (v :: t)).length = v.length := by
  simp [npMeanAxis0]

/-- Entry `i` of the element-wise mean is the channel-`i` sum divided by
the number of buffered samples. -/
lemma npMeanAxis0_getD (v : List ℤ) (t : List (List ℤ)) (i : ℕ)
    (hi : i < v.length) :
    (npMeanAxis0 (v :: t)).getD i 0 =
      ((channelSum (v :: t) i : ℤ) : ℚ) / (((v :: t).length : ℕ) : ℚ) := by
  unfold npMeanAxis0 channelSum
  rw [List.getD_eq_getElem _ _ (by simpa using hi)]
  simp [Function.comp_def]

/-- C2: a frame-boundary drain over a non-empty buffer of N equal-length
samples yields the element-wise mean truncated toward zero per channel,
clears the buffer, appends the frame, and records exactly N as
`pulses_averaged`. -/
theorem C2_drain_nonempty_buffer (s : AppState) (now : String) (L : ℕ)
    (hrec : s.isRecording = true)
    (hmeta : s.currentSessionMetadata.isSome = true)
    (hbuf : s.pulseBuffer ≠ [])
    (hlen : ∀ v ∈ s.pulseBuffer, v.length = L) :
    ∃ s' f, captureFrame s now = .ok (s', some f) ∧
      f.pulsesAveraged = s.pulseBuffer.length ∧
      s'.pulseBuffer = [] ∧
      s'.recordedFrames = s.recordedFrames ++ [f] ∧
      f.sensorData.length = L ∧
      ∀ i, i < L →
        f.sensorData.getD i 0 =
          ratTrunc (((channelSum s.pulseBuffer i : ℤ) : ℚ) /
            ((s.pulseBuffer.length : ℕ) : ℚ)) := by
  unfold captureFrame
  rw [if_neg (not_not_intro ⟨hrec, hmeta⟩)]
  obtain ⟨v, t, hvt⟩ : ∃ v t, s.pulseBuffer = v :: t := by
    cases hb : s.pulseBuffer with
    | nil => exact absurd hb hbuf
    | cons v t => exact ⟨v, t, rfl⟩
  have hvL : v.length = L := hlen v (by rw [hvt]; exact List.mem_cons_self v t)
  refine ⟨_, _, rfl, ?_, rfl, rfl, ?_, ?_⟩
  · show (if s.pulseBuffer ≠ [] then s.pulseBuffer.length else 1) =
      s.pulseBuffer.length
    rw [if_pos hbuf]
  · show (if s.pulseBuffer ≠ [] then
        (npMeanAxis0 s.pulseBuffer).map ratTrunc else s.sensorData).length = L
    rw [if_pos hbuf, List.length_map, hvt, npMeanAxis0_length, hvL]
  · intro i hi
    show (if s.pulseBuffer ≠ [] then
        (npMeanAxis0 s.pulseBuffer).map ratTrunc else s.sensorData).getD i 0 =
      ratTrunc _
    rw [if_pos hbuf]
    have hilt : i < ((npMeanAxis0 s.pulseBuffer).map ratTrunc).length := by
      rw [List.length_map, hvt, npMeanAxis0_length, hvL]; exact hi
    rw [List.getD_eq_getElem _ _ hilt, List.getElem_map]
    have := npMeanAxis0_getD v t i (by rw [hvL]; exact hi)
    rw [← hvt] at this
    rw [← List.getD_eq_getElem _ (0 : ℚ)  (by simpa using hilt), this]

/-- Witness for C2: the spec's aggregation scenario — single-channel
samples [10, 20, 30] drain to average 20 with `pulses_averaged = 3`. -/
theorem C2_drain_nonempty_buffer_witness :
    (∃ s' f, captureFrame c2State "t0" = .ok (s', some f) ∧
      f.pulsesAveraged = c2State.pulseBuffer.length ∧
      s'.pulseBuffer = [] ∧
      s'.recordedFrames = c2State.recordedFrames ++ [f] ∧
      f.sensorData.length = 1 ∧
      ∀ i, i < 1 →
        f.sensorData.getD i 0 =
          ratTrunc (((channelSum c2State.pulseBuffer i : ℤ) : ℚ) /
            ((c2State.pulseBuffer.length : ℕ) : ℚ))) ∧
    drainedData c2State "t0" = some [20] ∧
    drainedCount c2State "t0" = some 3 :=
  ⟨C2_drain_nonempty_buffer c2State "t0" 1 rfl rfl (by decide) (by decide),
   by
     norm_num [drainedData, captureFrame, c2State, initState, m0,
       npMeanAxis0, channelSum, ratTrunc, List.range_succ]
     intro h
     exact absurd h (by decide),
   by decide⟩

/-- C3 counterexample: draining with an empty buffer does return the last
known raw sample, but the frame's `pulses_averaged` is 1, not 0 (the source
sets `num_pulses = 1` in the empty-buffer branch, line 2097). -/
theorem C3_counterexample :
    drainedData c3State "t0" = some [12, 0, 44] ∧
    drainedCount c3State "t0" = some 1 ∧
    drainedCount c3State "t0" ≠ some 0 := by
  refine ⟨by decide, by decide, by decide⟩

/-- C3 (amended): if the buffer is empty at drain time, the emitted frame
carries the last known raw sample (`self.sensor_data`) rather than zeros,
and its `pulses_averaged` count is 1. -/
theorem C3_drain_empty_buffer (s : AppState) (now : String)
    (hrec : s.isRecording = true)
    (hmeta : s.currentSessionMetadata.isSome = true)
    (hbuf : s.pulseBuffer = []) :
    ∃ s' f, captureFrame s now = .ok (s', some f) ∧
      f.sensorData = s.sensorData ∧
      f.pulsesAveraged = 1 ∧
      s'.recordedFrames = s.recordedFrames ++ [f] := by
  unfold captureFrame
  rw [if_neg (not_not_intro ⟨hrec, hmeta⟩)]
  refine ⟨_, _, rfl, ?_, ?_, rfl⟩
  · show (if s.pulseBuffer ≠ [] then
        (npMeanAxis0 s.pulseBuffer).map ratTrunc else s.sensorData) =
      s.sensorData
    rw [if_neg (by simp [hbuf])]
  · show (if s.pulseBuffer ≠ [] then s.pulseBuffer.length else 1) = 1
    rw [if_neg (by simp [hbuf])]

/-- Witness for C3 (amended) at the concrete empty-buffer state. -/
theorem C3_drain_empty_buffer_witness :
    ∃ s' f, captureFrame c3State "t0" = .ok (s', some f) ∧
      f.sensorData = c3State.sensorData ∧
      f.pulsesAveraged = 1 ∧
      s'.recordedFrames = c3State.recordedFrames ++ [f] :=
  C3_drain_empty_buffer c3State "t0" rfl rfl rfl

/-- C7 counterexample: a capture firing in the paused state returns
normally (resetting the scheduling flag and clearing the stale buffer) and
appends no frame; it does not fail with `NotRecording`. -/
theorem C7_counterexample :
    captureFrame c7State "t0" =
      .ok ({ c7State with frameCaptureScheduled := false, pulseBuffer := [] },
           none) ∧
    captureFrame c7State "t0" ≠ .error .notRecording := by
  have h : captureFrame c7State "t0" =
      .ok ({ c7State with frameCaptureScheduled := false, pulseBuffer := [] },
           none) := rfl
  refine ⟨h, ?_⟩
  rw [h]
  intro hc
  exact Except.noConfusion hc

/-- C7 (amended): a frame-capture firing outside Recording is a silent
no-op: no error is signalled, no frame is appended, the recorded list is
untouched, and the firing clears the pulse buffer and scheduling flag. -/
theorem C7_capture_not_recording (s : AppState) (now : String)
    (h : s.isRecording = false) :
    captureFrame s now =
      .ok ({ s with frameCaptureScheduled := false, pulseBuffer := [] },
           none) := by
  unfold captureFrame
  rw [if_pos]
  rintro ⟨h1, -⟩
  rw [h] at h1
  exact Bool.noConfusion h1

/-- Witness for C7 (amended) at the concrete paused state. -/
theorem C7_capture_not_recording_witness :
    captureFrame c7State "t1" =
      .ok ({ c7State with frameCaptureScheduled := false, pulseBuffer := [] },
           none) :=
  C7_capture_not_recording c7State "t1" rfl

/-- C4 (code bug): `_save_dmr_file` writes
`duration_seconds = len(frames) * 0.05` regardless of the per-frame
`frame_period_ms` it records.  For two frames captured at a 100 ms period
the persisted duration is 0.1 s while the period-aware sum the spec (and
the save dialog at lines 2230-2233) prescribes is 0.2 s. -/
theorem C4_duration_ignores_period :
    (mkDmrDocument m0 [c4FrameA, c4FrameB] defaultZones).summary.durationSeconds
        = 1 / 10 ∧
    specDurationSeconds [c4FrameA, c4FrameB] = 1 / 5 ∧
    (1 / 10 : ℚ) ≠ 1 / 5 := by
  refine ⟨by norm_num [mkDmrDocument],
          by norm_num [specDurationSeconds, c4FrameA, c4FrameB],
          by norm_num⟩

/-- C8: an I/O failure during save leaves the in-memory session entirely
unchanged — frames, metadata, and the saved flag keep their pre-save
values, and no document is persisted — so the operator can retry. -/
theorem C8_save_failure_preserves_session (s : AppState) :
    (saveDmrFile s false).1.recordedFrames = s.recordedFrames ∧
    (saveDmrFile s false).1.currentSessionMetadata =
      s.currentSessionMetadata ∧
    (saveDmrFile s false).1.sessionSaved = s.sessionSaved ∧
    (saveDmrFile s false).1 = s ∧
    (saveDmrFile s false).2 = none := by
  unfold saveDmrFile
  cases hm : s.currentSessionMetadata with
  | none => exact ⟨rfl, hm, rfl, rfl, rfl⟩
  | some m => exact ⟨rfl, hm, rfl, rfl, rfl⟩

/-- C9: loading the document produced by saving a session reproduces the
session's metadata and its ordered frame list, compared by value. -/
theorem C9_save_load_round_trip (s s0 : AppState) (m : SessionMetadata)
    (hmeta : s.currentSessionMetadata = some m) :
    ∃ doc, (saveDmrFile s true).2 = some doc ∧
      doc.session = m ∧
      doc.frames = s.recordedFrames ∧
      (loadDmr s0 doc).currentSessionMetadata = s.currentSessionMetadata ∧
      (loadDmr s0 doc).recordedFrames = s.recordedFrames := by
  unfold saveDmrFile
  rw [hmeta]
  exact ⟨_, rfl, rfl, rfl, rfl, rfl⟩

/-- Witness for C9: round trip of a concrete one-frame session. -/
theorem C9_save_load_round_trip_witness :
    ∃ doc, (saveDmrFile c9State true).2 = some doc ∧
      doc.session = m0 ∧
      doc.frames = c9State.recordedFrames ∧
      (loadDmr initState doc).currentSessionMetadata =
        c9State.currentSessionMetadata ∧
      (loadDmr initState doc).recordedFrames = c9State.recordedFrames :=
  C9_save_load_round_trip c9State initState m0 rfl

/-- A left fold of `max` yields its seed or an element of the list. -/
lemma foldl_max_mem (t : List ℤ) (a : ℤ) :
    t.foldl max a = a ∨ t.foldl max a ∈ t := by
  induction t generalizing a with
  | nil => exact Or.inl rfl
  | cons h tl ih =>
    rcases ih (max a h) with hc | hc
    · rcases max_cases a h with ⟨hm, -⟩ | ⟨hm, -⟩
      · exact Or.inl (by rw [List.foldl_cons, hc, hm])
      · refine Or.inr ?_
        rw [List.foldl_cons, hc, hm]
        exact List.mem_cons_self h tl
    · exact Or.inr (List.mem_cons_of_mem h hc)

/-- The seed bounds a left fold of `max` from below. -/
lemma le_foldl_max (t : List ℤ) (a : ℤ) : a ≤ t.foldl max a := by
  induction t generalizing a with
  | nil => exact le_refl a
  | cons h tl ih => exact le_trans (le_max_left a h) (ih (max a h))

/-- Every list element bounds a left fold of `max` from below. -/
lemma mem_le_foldl_max (t : List ℤ) (a x : ℤ) (hx : x ∈ t) :
    x ≤ t.foldl max a := by
  induction t generalizing a with
  | nil => cases hx
  | cons h tl ih =>
    rcases List.mem_cons.mp hx with rfl | hx'
    · exact le_trans (le_max_right a x) (le_foldl_max tl (max a x))
    · exact ih (max a h) hx'

/-- `max` of a non-empty list is one of its elements. -/
lemma pyMax_mem (l : List ℤ) (h : l ≠ []) : pyMax l ∈ l := by
  cases l with
  | nil => exact absurd rfl h
  | cons a t =>
    show t.foldl max a ∈ a :: t
    rcases foldl_max_mem t a with hc | hc
    · rw [hc]
      exact List.mem_cons_self a t
    · exact List.mem_cons_of_mem a hc

/-- `max` of a list bounds every element. -/
lemma le_pyMax (l : List ℤ) (x : ℤ) (hx : x ∈ l) : x ≤ pyMax l := by
  cases l with
  | nil => cases hx
  | cons a t =>
    show x ≤ t.foldl max a
    rcases List.mem_cons.mp hx with rfl | hx'
    · exact le_foldl_max t x
    · exact mem_le_foldl_max t a x hx'

/-- C10 counterexample: a frame whose 65 channels are all zero has no
active channel, yet its report row is labelled "Below Therapeutic" (the
classification of avg 0.0), not "No Data" — "No Data" is reserved for an
empty channel list. -/
theorem C10_counterexample :
    (reportRow defaultZones c10Frame).activeSensors = 0 ∧
    (reportRow defaultZones c10Frame).zone = "Below Therapeutic" ∧
    (reportRow defaultZones c10Frame).zone ≠ "No Data" := by
  have hz : (reportRow defaultZones c10Frame).zone = "Below Therapeutic" := by
    norm_num [reportRow, c10Frame, defaultZones, List.filter_replicate]
  refine ⟨by decide, hz, ?_⟩
  rw [hz]
  decide

/-- C10 (amended): in a report row, a channel is active iff its value is
strictly greater than 1; Avg_kPa is the mean over active channels only
(0.0 when none are active), Peak_kPa is the maximum over all channels,
Active_Sensors is the count of active channels; a frame with a non-empty
channel list is never labelled "No Data" (even when no channel is active —
it then falls in the band of 0.0, i.e. "Below Therapeutic" for positive
thresholds), while "No Data" is the label exactly when the frame's channel
list is empty. -/
theorem C10_report_row_semantics (zones : PressureZones) (f : Frame) :
    (f.sensorData = [] →
      (reportRow zones f).zone = "No Data" ∧
      (reportRow zones f).activeSensors = 0 ∧
      (reportRow zones f).avg = 0) ∧
    (f.sensorData ≠ [] →
      (reportRow zones f).activeSensors =
        (f.sensorData.filter (fun v => 1 < v)).length ∧
      ((reportRow zones f).peak = ((pyMax f.sensorData : ℤ) : ℚ) ∧
        pyMax f.sensorData ∈ f.sensorData ∧
        ∀ x ∈ f.sensorData, x ≤ pyMax f.sensorData) ∧
      (f.sensorData.filter (fun v => 1 < v) = [] →
        (reportRow zones f).avg = 0 ∧
        (0 < zones.therapeuticMin →
          (reportRow zones f).zone = "Below Therapeutic")) ∧
      (f.sensorData.filter (fun v => 1 < v) ≠ [] →
        (reportRow zones f).avg =
          (((f.sensorData.filter (fun v => 1 < v)).sum : ℤ) : ℚ) /
            (((f.sensorData.filter (fun v => 1 < v)).length : ℕ) : ℚ)) ∧
      (reportRow zones f).zone ≠ "No Data") := by
  by_cases hsd : f.sensorData = []
  · refine ⟨fun _ => ?_, fun hne => absurd hsd hne⟩
    simp [reportRow, hsd]
  · refine ⟨fun h => absurd h hsd, fun _ =>
      ⟨?_, ⟨?_, pyMax_mem _ hsd, fun x hx => le_pyMax _ x hx⟩, ?_, ?_, ?_⟩⟩
    · simp [reportRow, hsd]
    · simp [reportRow, hsd]
    · intro hact
      refine ⟨by simp [reportRow, hsd, hact], fun hpos => ?_⟩
      simp [reportRow, hsd, hact, hpos]
    · intro hact
      simp [reportRow, hsd, hact]
    · simp only [reportRow, if_pos hsd]
      split_ifs <;> decide

/-- Witness for C10 (amended): the frame [0, 30, 50] has two active
channels and is not labelled "No Data". -/
theorem C10_report_row_semantics_witness :
    (reportRow defaultZones c10FrameB).zone ≠ "No Data" :=
  (((C10_report_row_semantics defaultZones c10FrameB).2
    (by decide)).2.2.2.2)

/-- Appending a frame stamped with the current list length preserves the
sequential-index invariant. -/
lemma framesIndexed_append (frames : List Frame) (f : Frame)
    (h : framesIndexed frames) (hf : f.frameNumber = frames.length) :
    framesIndexed (frames ++ [f]) := by
  unfold framesIndexed at *
  rw [List.map_append, h]
  simp [List.range_succ, hf]

/-- `_save_dmr_file` never touches the recorded frame list. -/
lemma saveDmrFile_recordedFrames (s : AppState) (ioOk : Bool) :
    (saveDmrFile s ioOk).1.recordedFrames = s.recordedFrames := by
  unfold saveDmrFile
  cases s.currentSessionMetadata with
  | none => rfl
  | some m => cases ioOk <;> rfl

/-- Every event either keeps the recorded frame list, clears it, or
appends one frame stamped with the current length — so the
sequential-index invariant is preserved. -/
lemma stepEvent_framesIndexed (s : AppState) (e : Event)
    (h : framesIndexed s.recordedFrames) :
    framesIndexed (stepEvent s e).recordedFrames := by
  cases e with
  | tick sample =>
    have : (stepEvent s (.tick sample)).recordedFrames = s.recordedFrames := by
      show (updateTick s sample).recordedFrames = s.recordedFrames
      unfold updateTick
      by_cases h1 : s.sensorMode = "disconnected" <;>
        by_cases h2 : s.isRecording = true <;>
          by_cases h3 : s.currentSessionMetadata.isSome = true <;>
            simp [h1, h2, h3]
    rw [this]
    exact h
  | capture now =>
    show framesIndexed
      (match captureFrame s now with
        | .ok (s', _) => s'
        | .error _ => s).recordedFrames
    unfold captureFrame
    by_cases hg : (s.isRecording = true ∧ s.currentSessionMetadata.isSome = true)
    · rw [if_neg (not_not_intro hg)]
      exact framesIndexed_append _ _ h rfl
    · rw [if_pos hg]
      exact h
  | toggle dialogMeta =>
    show framesIndexed (toggleRecord s dialogMeta).recordedFrames
    unfold toggleRecord
    split_ifs <;> first
      | exact h
      | (cases dialogMeta with
          | some m => exact rfl
          | none => exact rfl)
  | stop save ioOk =>
    show framesIndexed (stopRecord s save ioOk).1.recordedFrames
    have hframes :
        (stopRecord s save ioOk).1.recordedFrames = s.recordedFrames ∨
        (stopRecord s save ioOk).1.recordedFrames = [] := by
      unfold stopRecord
      by_cases hm : s.currentSessionMetadata = none ∧ s.recordedFrames = []
      · rw [if_pos hm]
        exact Or.inl rfl
      · rw [if_neg hm]
        by_cases hin :
            s.currentSessionMetadata.isSome = true ∧ s.recordedFrames ≠ []
        · cases save
          · simp [hin]
          · simp [hin, saveDmrFile_recordedFrames]
        · simp [hin]
    rcases hframes with he | he
    · rw [he]
      exact h
    · rw [he]
      exact rfl

/-- C6: within one session frame indices are assigned sequentially from 0
with no skip — an invariant of every event sequence (ticks, capture
firings, pause/resume toggles, stop) from the fresh application state —
and in the concrete pause/resume scenario (1 frame, pause, resume, 2 more
frames) the indices are [0, 1, 2] and the saved document's
`summary.total_frames` is 3. -/
theorem C6_sequential_frame_indices :
    (∀ es : List Event, framesIndexed (runEvents initState es).recordedFrames) ∧
    (runEvents initState c6Events).recordedFrames.map (fun f => f.frameNumber)
        = [0, 1, 2] ∧
    (stopRecord (runEvents initState c6Events) true true).2.map
        (fun d => d.summary.totalFrames) = some 3 := by
  refine ⟨?_, ?_, ?_⟩
  · intro es
    have key : ∀ (l : List Event) (s : AppState),
        framesIndexed s.recordedFrames →
        framesIndexed (runEvents s l).recordedFrames := by
      intro l
      induction l with
      | nil => exact fun s hs => hs
      | cons e t ih => exact fun s hs => ih _ (stepEvent_framesIndexed s e hs)
    exact key es initState rfl
  · norm_num +decide [runEvents, c6Events, stepEvent, updateTick,
      toggleRecord, captureFrame, initState, m0, npMeanAxis0, ratTrunc,
      List.range_succ]
  · norm_num +decide [runEvents, c6Events, stepEvent, updateTick,
      toggleRecord, captureFrame, stopRecord, saveDmrFile, mkDmrDocument,
      initState, m0, npMeanAxis0, ratTrunc, List.range_succ]

end TactileSense
